import Mathlib

/-!
Shallow embedding of the `lox-linein-bridge` audio bridge (Rust) in Lean 4.

Numeric conventions of the embedding:
* `f32`/`f64` sample values are modelled as exact rationals (`ℚ`); the inputs
  appearing in the claims (`±1.0`, `±0.5`, `0`, rate ratios like `96000/48000`)
  are exactly representable in the corresponding IEEE formats and all
  intermediate operations on them are exact, so the rational model agrees with
  the floating-point code on those inputs.
* `Instant`/`Duration` pairs are modelled as millisecond counts (`ℕ`);
  `Instant::duration_since` saturates at zero, matching truncated `ℕ`
  subtraction.
* Machine integers (`i16`, `u16`, `u32`, `u64`) are modelled as `ℤ`/`ℕ`; the
  code never overflows them on the values involved.
-/

/-! ## `src/audio.rs`: sample conversion -/

/-- `ResamplerMode` from `src/audio.rs`. -/
inductive ResamplerMode where
  | Linear
  | SincFast
  | SincQuality
deriving DecidableEq, Repr

/-- `ResamplerMode::parse` from `src/audio.rs`: case-insensitive, trimmed. -/
def ResamplerMode.parse (name : String) : Option ResamplerMode :=
  match name.trim.toLower with
  | "linear" | "basic" => some .Linear
  | "sinc" | "rubato" | "quality" | "hq" => some .SincQuality
  | "sinc-fast" | "fast" | "medium" => some .SincFast
  | _ => none

/-- `f32_to_i16` from `src/audio.rs`: clamp to `[-1, 1]` (Rust
`f32::clamp`: return the bound when the sample lies beyond it), scale by
`i16::MAX = 32767`, and cast `f32 → i16` (truncation toward zero, which is
what Rust's `as i16` does for in-range values). -/
def f32_to_i16 (sample : ℚ) : ℤ :=
  let clamped := if sample < -1 then -1 else if 1 < sample then 1 else sample
  let scaled := clamped * 32767
  if 0 ≤ scaled then ⌊scaled⌋ else ⌈scaled⌉

/-- `i16::to_le_bytes`: little-endian two's-complement encoding of an `i16`
value (the argument is assumed in `[-32768, 32767]`, which `f32_to_i16`
guarantees). Bytes are modelled as naturals `< 256`. -/
def i16_to_le_bytes (n : ℤ) : List ℕ :=
  let u := (n % 65536).toNat
  [u % 256, u / 256]

/-- The byte-serialisation loop of `handle_samples_f32` in `src/audio.rs`:
each `i16` sample is appended as its two little-endian bytes. -/
def pcm_bytes (samples : List ℤ) : List ℕ :=
  samples.flatMap i16_to_le_bytes

/-- `map_channels` from `src/audio.rs`. The Rust code indexes `frame[0]` /
`frame[1]`; callers always pass a frame of length `channels`, so the
`getD _ 0` defaults are never taken where the code is defined. -/
def map_channels (frame : List ℚ) (channels : ℕ) : ℚ × ℚ :=
  match channels with
  | 0 => (0, 0)
  | 1 => (frame.getD 0 0, frame.getD 0 0)
  | _ => (frame.getD 0 0, frame.getD 1 0)

/-- The `while idx + channels <= data.len()` loop of `convert_direct_to_i16`
(`src/audio.rs`), written with explicit fuel: `none` means the fuel ran out
before the loop guard failed (the Rust loop has not terminated within that
many iterations). For `channels ≥ 1` the loop runs at most
`data.length + 1` times, so the wrapper's fuel is sufficient there. -/
def convertDirectLoop (data : List ℚ) (channels : ℕ) :
    ℕ → ℕ → List ℤ → Option (List ℤ)
  | 0, _, _ => none
  | fuel + 1, idx, out =>
    if idx + channels ≤ data.length then
      let frame := (data.drop idx).take channels
      let (left, right) := map_channels frame channels
      convertDirectLoop data channels fuel (idx + channels)
        (out ++ [f32_to_i16 left, f32_to_i16 right])
    else
      some out

/-- `convert_direct_to_i16` from `src/audio.rs`. `none` means the Rust
function does not terminate (its `while` loop never exits). -/
def convert_direct_to_i16 (data : List ℚ) (channels : ℕ) : Option (List ℤ) :=
  if channels = 2 ∧ data.length % 2 = 0 then
    some (data.map f32_to_i16)
  else
    convertDirectLoop data channels (data.length + 1) 0 []

/-! ## `src/audio.rs`: `LinearResampler` -/

/-- The mutable state of `LinearResampler` (`src/audio.rs`): a fractional
read position (in input frames) and the buffered interleaved samples. -/
structure LinearResampler where
  pos : ℚ
  buffer : List ℚ
deriving DecidableEq, Repr

/-- `LinearResampler::new` from `src/audio.rs` (the capacity hint has no
observable effect). -/
def LinearResampler.new : LinearResampler := ⟨0, []⟩

/-- The `while self.pos + 1.0 < available_frames` loop of
`LinearResampler::process` (`src/audio.rs`), with explicit fuel; `none`
means the fuel ran out before the guard failed. Each iteration advances
`pos` by `step = in_rate / target_rate`, so for `in_rate ≥ 1` and `pos ≥ 0`
the loop runs at most `avail * target_rate / in_rate + 2` times. -/
def linearLoop (buffer : List ℚ) (channels : ℕ) (step : ℚ) (avail : ℕ) :
    ℕ → ℚ → List ℤ → Option (ℚ × List ℤ)
  | 0, _, _ => none
  | fuel + 1, pos, out =>
    if pos + 1 < (avail : ℚ) then
      let idx := ⌊pos⌋.toNat
      let frac := pos - idx
      let frameA := (buffer.drop (idx * channels)).take channels
      let frameB := (buffer.drop ((idx + 1) * channels)).take channels
      let (leftA, rightA) := map_channels frameA channels
      let (leftB, rightB) := map_channels frameB channels
      let left := leftA + (leftB - leftA) * frac
      let right := rightA + (rightB - rightA) * frac
      linearLoop buffer channels step avail fuel (pos + step)
        (out ++ [f32_to_i16 left, f32_to_i16 right])
    else
      some (pos, out)

/-- `LinearResampler::process` from `src/audio.rs`. Returns the emitted
`i16` samples together with the post-state; `none` means the interpolation
loop did not terminate within the fuel bound (which cannot happen for
`in_rate ≥ 1`; see `linearLoop`). -/
def LinearResampler.process (self : LinearResampler) (input : List ℚ)
    (in_channels in_rate target_rate : ℕ) :
    Option (List ℤ × LinearResampler) :=
  if input = [] ∨ in_channels = 0 then
    some ([], self)
  else
    let buffer := self.buffer ++ input
    let step : ℚ := (in_rate : ℚ) / (target_rate : ℚ)
    let max_samples := in_channels * target_rate
    let (buffer, pos) :=
      if max_samples < buffer.length then
        let drop_samples := buffer.length - max_samples
        let drop_frames := drop_samples / in_channels
        (buffer.drop drop_samples, max (self.pos - (drop_frames : ℚ)) 0)
      else
        (buffer, self.pos)
    let avail := buffer.length / in_channels
    match linearLoop buffer in_channels step avail
        (avail * target_rate / in_rate + 2) pos [] with
    | none => none
    | some (pos, out) =>
      let drop_frames := ⌊pos⌋.toNat
      if 0 < drop_frames then
        some (out, ⟨pos - (drop_frames : ℚ), buffer.drop (drop_frames * in_channels)⟩)
      else
        some (out, ⟨pos, buffer⟩)

/-! ## `src/stream.rs`: backoff, VAD gate, RMS envelope, status -/

/-- `TRACK_GAP_MS` from `src/stream.rs`. -/
def TRACK_GAP_MS : ℕ := 2000

/-- `Backoff` from `src/stream.rs` (identical copy in `src/main.rs`);
`current` is the delay in whole seconds, which is all the code ever uses. -/
structure Backoff where
  current : ℕ
deriving DecidableEq, Repr

/-- `Backoff::new`. -/
def Backoff.new : Backoff := ⟨1⟩

/-- `Backoff::reset`. -/
def Backoff.reset (_self : Backoff) : Backoff := ⟨1⟩

/-- `Backoff::next_delay`: returns the current delay and doubles it,
capped at 30 seconds. -/
def Backoff.next_delay (self : Backoff) : ℕ × Backoff :=
  (self.current, ⟨min (self.current * 2) 30⟩)

/-- The delay produced by the `n`-th call (0-based) of `next_delay` on a
given backoff state. -/
def Backoff.nth_delay (self : Backoff) : ℕ → ℕ
  | 0 => (self.next_delay).1
  | n + 1 => ((self.next_delay).2).nth_delay n

/-- `VadGate` from `src/stream.rs`. Times are in milliseconds. -/
structure VadGate where
  active : Bool
  last_active : Option ℕ
deriving DecidableEq, Repr

/-- `VadGate::new`. -/
def VadGate.new : VadGate := ⟨false, none⟩

/-- `VadGate::set_active`. -/
def VadGate.set_active (_self : VadGate) (now : ℕ) : VadGate :=
  ⟨true, some now⟩

/-- `VadGate::set_inactive`. -/
def VadGate.set_inactive (self : VadGate) : VadGate :=
  ⟨false, self.last_active⟩

/-- `VadGate::should_keep_active`: `now.duration_since ts` saturates at 0,
matching truncated `ℕ` subtraction. -/
def VadGate.should_keep_active (self : VadGate) (now hold : ℕ) : Bool :=
  match self.last_active with
  | some ts => decide (now - ts ≤ hold)
  | none => false

/-- `i16::from_le_bytes([b0, b1])`: two's-complement decoding of two
little-endian bytes (each `< 256`). -/
def i16_from_le_bytes (b0 b1 : ℕ) : ℤ :=
  let u := b0 + 256 * b1
  if u < 32768 then (u : ℤ) else (u : ℤ) - 65536

/-- `bytes.chunks_exact(2)`: the complete 2-byte chunks of a byte slice; a
trailing odd byte is not part of any chunk. -/
def chunksExact2 : List ℕ → List (ℕ × ℕ)
  | b0 :: b1 :: rest => (b0, b1) :: chunksExact2 rest
  | _ => []

/-- `rms_db_from_pcm_i16_le` from `src/stream.rs`, up to the final
`20 * log10 (sqrt mean)` map: the returned payload is the mean square
`sum / count` of the normalised samples (a rational), of which the dB value
computed by the code (`-100.0` when the root-mean-square is `0`, else
`20 * log10 rms`) is a strictly monotone real-valued function. The code
returns `None` exactly when `count = 0`, which this embedding preserves. -/
def rms_db_from_pcm_i16_le (bytes : List ℕ) : Option ℚ :=
  let chunks := chunksExact2 bytes
  let sum := (chunks.map (fun c =>
    let normalized : ℚ := (i16_from_le_bytes c.1 c.2 : ℚ) / 32767
    normalized * normalized)).sum
  let count := chunks.length
  if count = 0 then none
  else some (sum / (count : ℚ))

/-- The per-chunk mutable state of the streaming loop in `stream_audio_tcp`
/ `stream_audio_ws` (`src/stream.rs`) relevant to the VAD gate and the
`track_change` flag: the gate itself, the `idle_since` marker, and the
`StatusState.track_change` flag kept behind the `StatusHandle`. -/
structure ChunkLoopState where
  gate : VadGate
  idle_since : Option ℕ
  track_change : Bool
deriving DecidableEq, Repr

/-- The initial loop state: `VadGate::new()`, `idle_since = None`, and
`StatusState` constructed with `track_change: false`. -/
def ChunkLoopState.init : ChunkLoopState := ⟨VadGate.new, none, false⟩

/-- The gate-and-edge part of the per-chunk body of `stream_audio_tcp`
(`src/stream.rs`, identical in `stream_audio_ws`): given the envelope
`rms_db` computed for the chunk (dB value modelled as an abstract rational)
and the current time `now` in ms, update the gate, handle the rising/falling
edge, and possibly raise `track_change` via `StatusHandle::set_track_change`.
When `rms_db` is `None` the gate logic is skipped entirely. -/
def chunkStep (threshold_db : ℚ) (hold_ms : ℕ) (rms_db : Option ℚ)
    (now : ℕ) (s : ChunkLoopState) : ChunkLoopState :=
  match rms_db with
  | none => s
  | some rms =>
    let was_active := s.gate.active
    let gate :=
      if rms ≥ threshold_db then s.gate.set_active now
      else if s.gate.should_keep_active now hold_ms then s.gate
      else s.gate.set_inactive
    if gate.active && !was_active then
      match s.idle_since with
      | some idle_start =>
        ⟨gate, none, s.track_change || decide (TRACK_GAP_MS ≤ now - idle_start)⟩
      | none => ⟨gate, none, s.track_change⟩
    else if !gate.active && was_active then
      ⟨gate, some now, s.track_change⟩
    else
      ⟨gate, s.idle_since, s.track_change⟩

/-- The `track_change` part of `StatusHandle::bridge_status`
(`src/stream.rs`): if the flag is set, report `Some(true)` and clear it in
the same locked critical section; otherwise report `None` and leave the
state alone. Returns the reported value and the post-state. -/
def bridge_status (s : ChunkLoopState) : Option Bool × ChunkLoopState :=
  if s.track_change then (some true, ⟨s.gate, s.idle_since, false⟩)
  else (none, s)

/-! ## `src/main.rs` / `src/models.rs`: runtime configuration -/

/-- `BridgeConfigResponse` from `src/models.rs`, the server's reply; every
field optional. `main.rs` additionally reads an `ingest_resampler` string
from the reply (`RuntimeConfig::from_response` / `update`), so it is
included here. `vad_threshold_db` (`f32`) is modelled as `ℚ`. -/
structure BridgeConfigResponse where
  assigned_input_id : Option String
  ingest_ws_url : Option String
  ingest_tcp_host : Option String
  ingest_tcp_port : Option ℕ
  capture_device : Option String
  vad_threshold_db : Option ℚ
  vad_hold_ms : Option ℕ
  ingest_sample_rate : Option ℕ
  ingest_resampler : Option String
deriving DecidableEq, Repr

/-- `RuntimeConfig` from `src/main.rs`. -/
structure RuntimeConfig where
  assigned_input_id : Option String
  ingest_ws_url : Option String
  ingest_tcp_host : Option String
  ingest_tcp_port : Option ℕ
  capture_device : Option String
  vad_threshold_db : ℚ
  vad_hold_ms : ℕ
  target_rate : ℕ
  resampler : ResamplerMode
deriving DecidableEq, Repr

/-- `parse_resampler` from `src/main.rs`: parse the optional mode string,
defaulting to `SincQuality`. -/
def parse_resampler (value : Option String) : ResamplerMode :=
  ((value.bind ResamplerMode.parse).getD ResamplerMode.SincQuality)

/-- `RuntimeConfig::from_response` from `src/main.rs`. -/
def RuntimeConfig.from_response (response : BridgeConfigResponse) : RuntimeConfig where
  assigned_input_id := response.assigned_input_id
  ingest_ws_url := response.ingest_ws_url
  ingest_tcp_host := response.ingest_tcp_host
  ingest_tcp_port := response.ingest_tcp_port
  capture_device := response.capture_device
  vad_threshold_db := (response.vad_threshold_db).getD (-45)
  vad_hold_ms := (response.vad_hold_ms).getD 2000
  target_rate := (response.ingest_sample_rate).getD 48000
  resampler := parse_resampler response.ingest_resampler

/-- `f32::EPSILON = 2⁻²³`, used by `RuntimeConfig::update` to compare VAD
thresholds. -/
def f32_EPSILON : ℚ := 1 / 2 ^ 23

/-- `RuntimeConfig::update` from `src/main.rs`, with the `&mut self` state
passed explicitly: returns the updated configuration together with the
`changed` flag (the Rust function returns `Some(self.clone())` iff
`changed`). Each Rust block `if cond { self.field = v; changed = true }` is
rendered as `field := if cond then v else self.field` together with the
disjunct `cond` in `changed`, which is the same state transformation. -/
def RuntimeConfig.update (self : RuntimeConfig) (response : BridgeConfigResponse) :
    RuntimeConfig × Bool :=
  let cfg : RuntimeConfig :=
    { assigned_input_id :=
        if response.assigned_input_id ≠ self.assigned_input_id then
          response.assigned_input_id
        else self.assigned_input_id
      ingest_ws_url :=
        if response.ingest_ws_url ≠ self.ingest_ws_url then
          response.ingest_ws_url
        else self.ingest_ws_url
      ingest_tcp_host :=
        if response.ingest_tcp_host ≠ self.ingest_tcp_host then
          response.ingest_tcp_host
        else self.ingest_tcp_host
      ingest_tcp_port :=
        if response.ingest_tcp_port ≠ self.ingest_tcp_port then
          response.ingest_tcp_port
        else self.ingest_tcp_port
      capture_device :=
        if response.capture_device ≠ self.capture_device then
          response.capture_device
        else self.capture_device
      target_rate :=
        match response.ingest_sample_rate with
        | some rate => if rate ≠ self.target_rate then rate else self.target_rate
        | none => self.target_rate
      resampler :=
        match response.ingest_resampler with
        | some mode =>
          let next := parse_resampler (some mode)
          if next ≠ self.resampler then next else self.resampler
        | none => self.resampler
      vad_threshold_db :=
        match response.vad_threshold_db with
        | some vad =>
          if f32_EPSILON < |vad - self.vad_threshold_db| then vad
          else self.vad_threshold_db
        | none => self.vad_threshold_db
      vad_hold_ms :=
        match response.vad_hold_ms with
        | some hold => if hold ≠ self.vad_hold_ms then hold else self.vad_hold_ms
        | none => self.vad_hold_ms }
  let changed :=
    decide (response.assigned_input_id ≠ self.assigned_input_id) ||
    decide (response.ingest_ws_url ≠ self.ingest_ws_url) ||
    decide (response.ingest_tcp_host ≠ self.ingest_tcp_host) ||
    decide (response.ingest_tcp_port ≠ self.ingest_tcp_port) ||
    decide (response.capture_device ≠ self.capture_device) ||
    (match response.ingest_sample_rate with
     | some rate => decide (rate ≠ self.target_rate)
     | none => false) ||
    (match response.ingest_resampler with
     | some mode => decide (parse_resampler (some mode) ≠ self.resampler)
     | none => false) ||
    (match response.vad_threshold_db with
     | some vad => decide (f32_EPSILON < |vad - self.vad_threshold_db|)
     | none => false) ||
    (match response.vad_hold_ms with
     | some hold => decide (hold ≠ self.vad_hold_ms)
     | none => false)
  (cfg, changed)

/-- `StreamKey` from `src/main.rs`. -/
structure StreamKey where
  assigned_input_id : Option String
  ingest_ws_url : Option String
  ingest_tcp_host : Option String
  ingest_tcp_port : Option ℕ
  capture_device : Option String
  target_rate : ℕ
  resampler : ResamplerMode
deriving DecidableEq, Repr

/-- `RuntimeConfig::stream_key` from `src/main.rs`. -/
def RuntimeConfig.stream_key (self : RuntimeConfig) : StreamKey where
  assigned_input_id := self.assigned_input_id
  ingest_ws_url := self.ingest_ws_url
  ingest_tcp_host := self.ingest_tcp_host
  ingest_tcp_port := self.ingest_tcp_port
  capture_device := self.capture_device
  target_rate := self.target_rate
  resampler := self.resampler

/-- The sense in which a server reply "changes" one of the stream-relevant
fields of a configuration (the comparisons are exactly those made by
`RuntimeConfig::update` for the non-VAD fields): an `Option`-typed identity
field is changed when the reply's value differs from the current one, and
the sample rate / resampler are changed when the reply supplies a value
that differs from the current one. -/
def replyChangesStreamField (self : RuntimeConfig) (response : BridgeConfigResponse) : Prop :=
  response.assigned_input_id ≠ self.assigned_input_id ∨
  response.ingest_ws_url ≠ self.ingest_ws_url ∨
  response.ingest_tcp_host ≠ self.ingest_tcp_host ∨
  response.ingest_tcp_port ≠ self.ingest_tcp_port ∨
  response.capture_device ≠ self.capture_device ∨
  (∃ rate, response.ingest_sample_rate = some rate ∧ rate ≠ self.target_rate) ∨
  (∃ mode, response.ingest_resampler = some mode ∧
    parse_resampler (some mode) ≠ self.resampler)

/-! ## Helper lemmas -/

lemma f32_to_i16_zero : f32_to_i16 0 = 0 := by norm_num [f32_to_i16]

lemma f32_to_i16_one : f32_to_i16 1 = 32767 := by norm_num [f32_to_i16]

lemma f32_to_i16_neg_one : f32_to_i16 (-1) = -32767 := by
  norm_num [f32_to_i16, Int.ceil_eq_iff]

lemma f32_to_i16_half : f32_to_i16 (1 / 2) = 16383 := by norm_num [f32_to_i16]

lemma f32_to_i16_neg_half : f32_to_i16 (-(1 / 2)) = -16383 := by
  norm_num [f32_to_i16, Int.ceil_eq_iff]

lemma le_bytes_32767 : i16_to_le_bytes 32767 = [0xFF, 0x7F] := by
  norm_num [i16_to_le_bytes]
  exact ⟨by decide, by decide⟩

lemma le_bytes_neg_32767 : i16_to_le_bytes (-32767) = [0x01, 0x80] := by
  norm_num [i16_to_le_bytes]
  exact ⟨by decide, by decide⟩

lemma le_bytes_16383 : i16_to_le_bytes 16383 = [0xFF, 0x3F] := by
  norm_num [i16_to_le_bytes]
  exact ⟨by decide, by decide⟩

lemma le_bytes_neg_16383 : i16_to_le_bytes (-16383) = [0x01, 0xC0] := by
  norm_num [i16_to_le_bytes]
  exact ⟨by decide, by decide⟩

lemma le_bytes_zero : i16_to_le_bytes 0 = [0, 0] := by
  norm_num [i16_to_le_bytes]

lemma pcm_bytes_map (f : ℚ → ℤ) (data : List ℚ) :
    pcm_bytes (data.map f) = data.flatMap (fun s => i16_to_le_bytes (f s)) := by
  induction data with
  | nil => rfl
  | cons a l ih => simp only [pcm_bytes, List.map_cons, List.flatMap_cons] at *; rw [ih]

/-- Spec-side description of the stereo no-resampling path ("channel-mapped,
clamped, quantized input byte-for-byte"): for 2 input channels the channel
map keeps both samples of each complete frame, so it is the identity on the
sample list; each sample is clamped to `[-1, 1]`, multiplied by `32767`,
truncated to `i16` (toward zero), and encoded as two little-endian bytes. -/
def spec_stereo_direct_bytes (data : List ℚ) : List ℕ :=
  data.flatMap (fun s =>
    let clamped := if s < -1 then -1 else if 1 < s then 1 else s
    let scaled := clamped * 32767
    i16_to_le_bytes (if 0 ≤ scaled then ⌊scaled⌋ else ⌈scaled⌉))

lemma spec_stereo_direct_bytes_eq (data : List ℚ) :
    spec_stereo_direct_bytes data =
      data.flatMap (fun s => i16_to_le_bytes (f32_to_i16 s)) := rfl

/-- C2: on the no-resampling path with stereo input (whole frames), the
emitted bytes are exactly the channel-mapped, clamped, quantized,
little-endian-encoded input; on the concrete chunk `[1, -1, 0.5, -0.5]`
they are `FF 7F 01 80 FF 3F 01 C0`. -/
theorem convert_direct_stereo_passthrough :
    (∀ data : List ℚ, data.length % 2 = 0 →
      (convert_direct_to_i16 data 2).map pcm_bytes =
        some (spec_stereo_direct_bytes data)) ∧
    (convert_direct_to_i16 [1, -1, 1 / 2, -(1 / 2)] 2).map pcm_bytes =
      some [0xFF, 0x7F, 0x01, 0x80, 0xFF, 0x3F, 0x01, 0xC0] := by
  have hgen : ∀ data : List ℚ, data.length % 2 = 0 →
      (convert_direct_to_i16 data 2).map pcm_bytes =
        some (spec_stereo_direct_bytes data) := by
    intro data hlen
    simp only [convert_direct_to_i16, hlen, and_self, if_pos, Option.map_some']
    rw [spec_stereo_direct_bytes_eq, pcm_bytes_map]
  refine ⟨hgen, ?_⟩
  rw [hgen [1, -1, 1 / 2, -(1 / 2)] (by norm_num)]
  rw [spec_stereo_direct_bytes_eq]
  simp only [List.flatMap_cons, List.flatMap_nil, List.append_nil,
    f32_to_i16_one, f32_to_i16_neg_one, f32_to_i16_half, f32_to_i16_neg_half,
    le_bytes_32767, le_bytes_neg_32767, le_bytes_16383, le_bytes_neg_16383]
  rfl

/-- Witness for C2 at the stereo chunk `[1, -1]`. -/
theorem convert_direct_stereo_passthrough_witness :
    (convert_direct_to_i16 [1, -1] 2).map pcm_bytes =
      some [0xFF, 0x7F, 0x01, 0x80] := by
  rw [convert_direct_stereo_passthrough.1 [1, -1] (by norm_num)]
  rw [spec_stereo_direct_bytes_eq]
  simp only [List.flatMap_cons, List.flatMap_nil, List.append_nil,
    f32_to_i16_one, f32_to_i16_neg_one, le_bytes_32767, le_bytes_neg_32767]
  rfl

lemma Backoff.nth_delay_eq (c : ℕ) (hc : c ≤ 30) :
    ∀ n : ℕ, Backoff.nth_delay ⟨c⟩ n = min (c * 2 ^ n) 30 := by
  intro n
  induction n generalizing c with
  | zero => simp [Backoff.nth_delay, Backoff.next_delay]; omega
  | succ n ih =>
    simp only [Backoff.nth_delay, Backoff.next_delay]
    rw [ih (min (c * 2) 30) (by omega)]
    rcases le_or_lt (c * 2) 30 with h | h
    · rw [min_eq_left h]
      ring_nf
    · rw [min_eq_right (le_of_lt h)]
      have h1 : 30 ≤ c * 2 ^ (n + 1) := by
        calc (30 : ℕ) ≤ c * 2 := le_of_lt h
        _ ≤ c * 2 ^ (n + 1) := by
          apply Nat.mul_le_mul_left
          have : (1 : ℕ) ≤ 2 ^ n := Nat.one_le_two_pow
          calc (2 : ℕ) = 2 * 1 := by ring
          _ ≤ 2 ^ n * 2 := by omega
          _ = 2 ^ (n + 1) := by ring
      have h2 : 30 ≤ 30 * 2 ^ n := by
        have : (1 : ℕ) ≤ 2 ^ n := Nat.one_le_two_pow
        omega
      omega

/-- C8: from a fresh `Backoff`, the `n`-th `next_delay` result (0-based) is
`min (2^n) 30` seconds — i.e. the sequence 1, 2, 4, 8, 16, 30, 30, … —
and after `reset()` the next delay returned is again 1 second. -/
theorem backoff_sequence :
    (∀ n : ℕ, Backoff.new.nth_delay n = min (2 ^ n) 30) ∧
    (∀ b : Backoff, ((b.reset).next_delay).1 = 1) := by
  constructor
  · intro n
    have h := Backoff.nth_delay_eq 1 (by omega) n
    simpa using h
  · intro b
    rfl

lemma chunksExact2_length : ∀ l : List ℕ, (chunksExact2 l).length = l.length / 2
  | [] => rfl
  | [_] => by simp [chunksExact2]
  | _ :: _ :: rest => by
    simp only [chunksExact2, List.length_cons, chunksExact2_length rest]
    omega

lemma chunksExact2_append_even :
    ∀ (l : List ℕ) (b : ℕ), l.length % 2 = 0 →
      chunksExact2 (l ++ [b]) = chunksExact2 l
  | [], b, _ => rfl
  | [_], b, h => by simp at h
  | a :: c :: rest, b, h => by
    simp only [List.cons_append, chunksExact2, List.append_eq]
    rw [chunksExact2_append_even rest b (by simp only [List.length_cons] at h; omega)]

/-- C10: the envelope function returns `None` exactly on byte slices with
fewer than 2 bytes (so a 1-byte chunk produces no envelope), and a trailing
odd byte after complete samples is ignored. -/
theorem rms_envelope_none_iff (bytes : List ℕ) :
    (rms_db_from_pcm_i16_le bytes = none ↔ bytes.length < 2) ∧
    (∀ b : ℕ, bytes.length % 2 = 0 →
      rms_db_from_pcm_i16_le (bytes ++ [b]) = rms_db_from_pcm_i16_le bytes) := by
  constructor
  · simp only [rms_db_from_pcm_i16_le]
    constructor
    · intro h
      by_cases hc : (chunksExact2 bytes).length = 0
      · have := chunksExact2_length bytes
        omega
      · simp [hc] at h
    · intro h
      have hc := chunksExact2_length bytes
      have : (chunksExact2 bytes).length = 0 := by omega
      simp [this]
  · intro b hlen
    simp only [rms_db_from_pcm_i16_le, chunksExact2_append_even bytes b hlen]

/-- Witness for C10: appending a trailing odd byte to the 2-byte chunk
`[0, 0]` leaves the envelope unchanged, and the 1-byte chunk `[7]` has no
envelope. -/
theorem rms_envelope_none_iff_witness :
    rms_db_from_pcm_i16_le [0, 0, 7] = rms_db_from_pcm_i16_le [0, 0] ∧
    rms_db_from_pcm_i16_le [7] = none := by
  constructor
  · exact (rms_envelope_none_iff [0, 0]).2 7 (by decide)
  · exact (rms_envelope_none_iff [7]).1.mpr (by decide)

lemma chunkStep_gate (th : ℚ) (hold : ℕ) (rms : ℚ) (now : ℕ)
    (s : ChunkLoopState) :
    (chunkStep th hold (some rms) now s).gate =
      if rms ≥ th then s.gate.set_active now
      else if s.gate.should_keep_active now hold then s.gate
      else s.gate.set_inactive := by
  rcases s with ⟨⟨a, la⟩, idle, tc⟩
  by_cases h1 : rms ≥ th <;>
    by_cases h2 : (VadGate.mk a la).should_keep_active now hold <;>
    cases a <;> cases idle <;>
    simp [chunkStep, h1, h2, VadGate.set_active, VadGate.set_inactive]

lemma chunkStep_track_change (th : ℚ) (hold : ℕ) (rmsOpt : Option ℚ)
    (now : ℕ) (s : ChunkLoopState) :
    (chunkStep th hold rmsOpt now s).track_change =
      (s.track_change ||
        match rmsOpt, s.idle_since with
        | some rms, some idle_start =>
          decide (th ≤ rms) && !s.gate.active &&
            decide (TRACK_GAP_MS ≤ now - idle_start)
        | _, _ => false) := by
  match rmsOpt with
  | none => simp [chunkStep]
  | some rms =>
    rcases s with ⟨⟨a, la⟩, idle, tc⟩
    by_cases h1 : rms ≥ th <;>
      by_cases h2 : (VadGate.mk a la).should_keep_active now hold <;>
      cases a <;> cases idle <;>
      simp [chunkStep, h1, h2, VadGate.set_active, VadGate.set_inactive,
        ge_iff_le]

/-- C5: for a chunk with a defined envelope the gate update is exactly:
if `rms_db ≥ threshold_db` the gate becomes active with `last_active = now`;
otherwise, if `now − last_active ≤ hold_duration` the gate keeps its
previous state (sustain); otherwise it becomes inactive. -/
theorem vad_gate_update_rule (th rms : ℚ) (hold now : ℕ) (s : ChunkLoopState) :
    (th ≤ rms →
      (chunkStep th hold (some rms) now s).gate.active = true ∧
      (chunkStep th hold (some rms) now s).gate.last_active = some now) ∧
    (rms < th → ∀ ts, s.gate.last_active = some ts → now - ts ≤ hold →
      (chunkStep th hold (some rms) now s).gate = s.gate) ∧
    (rms < th → (∀ ts, s.gate.last_active = some ts → hold < now - ts) →
      (chunkStep th hold (some rms) now s).gate.active = false) := by
  refine ⟨fun hth => ?_, fun hlt ts hts hhold => ?_, fun hlt hfar => ?_⟩
  · rw [chunkStep_gate, if_pos (ge_iff_le.mpr hth)]
    exact ⟨rfl, rfl⟩
  · rw [chunkStep_gate, if_neg (by exact fun h => absurd (ge_iff_le.mp h) (not_le.mpr hlt)),
      if_pos (by simp [VadGate.should_keep_active, hts, hhold])]
  · rw [chunkStep_gate, if_neg (by exact fun h => absurd (ge_iff_le.mp h) (not_le.mpr hlt)),
      if_neg ?_]
    · rcases hk : s.gate.last_active with _ | ts
      · simp [VadGate.set_inactive]
      · simp [VadGate.set_inactive]
    · rcases hk : s.gate.last_active with _ | ts
      · simp [VadGate.should_keep_active, hk]
      · simp [VadGate.should_keep_active, hk]
        have := hfar ts hk
        omega

/-- Witness for C5: a quiet chunk (`rms = -1 < 0 = threshold`) arriving 10 ms
after `last_active = 0` with a 5 ms hold deactivates the gate. -/
theorem vad_gate_update_rule_witness :
    (chunkStep 0 5 (some (-1)) 10 ⟨⟨true, some 0⟩, none, false⟩).gate.active = false := by
  refine (vad_gate_update_rule 0 (-1) 5 10 ⟨⟨true, some 0⟩, none, false⟩).2.2
    (by norm_num) ?_
  intro ts hts
  simp at hts
  omega

/-- C6: the gate is idempotent on above-threshold chunks: processing the
same above-threshold chunk a second time (at any later instant) leaves the
gate active and does not raise `track_change` a second time, because the
rising-edge action requires the previous state to be inactive. -/
theorem vad_gate_idempotent (th rms : ℚ) (hold t1 t2 : ℕ)
    (s : ChunkLoopState) (hth : th ≤ rms) :
    (chunkStep th hold (some rms) t2
        (chunkStep th hold (some rms) t1 s)).gate.active = true ∧
    (chunkStep th hold (some rms) t2
        (chunkStep th hold (some rms) t1 s)).track_change =
      (chunkStep th hold (some rms) t1 s).track_change := by
  set s1 := chunkStep th hold (some rms) t1 s with hs1
  have hgate1 : s1.gate = s.gate.set_active t1 := by
    rw [hs1, chunkStep_gate, if_pos (ge_iff_le.mpr hth)]
  constructor
  · rw [chunkStep_gate, if_pos (ge_iff_le.mpr hth)]
    rfl
  · rw [chunkStep_track_change]
    have hact : s1.gate.active = true := by rw [hgate1]; rfl
    cases hidle : s1.idle_since with
    | none => simp
    | some t0 => simp [hact]

/-- Witness for C6 with threshold `0`, `rms = 1`, starting from the initial
loop state. -/
theorem vad_gate_idempotent_witness :
    (chunkStep 0 5 (some 1) 20
        (chunkStep 0 5 (some 1) 10 ChunkLoopState.init)).gate.active = true := by
  exact (vad_gate_idempotent 0 1 5 10 20 ChunkLoopState.init (by norm_num)).1

/-- C4: (a) one chunk step raises `track_change` exactly when the gate has a
rising edge (`rms ≥ threshold` with the gate previously inactive) and the
recorded idle period reaches `TRACK_GAP_MS = 2000` ms — in particular a
rising edge preceded by shorter recorded idleness never raises it; (b) a
control-plane read reports `Some(true)` exactly when the flag is set, and it
clears the flag, so absent a new edge the immediately following read reports
it absent (`None`). -/
theorem track_change_edge_and_consume :
    (∀ (th : ℚ) (hold : ℕ) (rmsOpt : Option ℚ) (now : ℕ) (s : ChunkLoopState),
      (chunkStep th hold rmsOpt now s).track_change =
        (s.track_change ||
          match rmsOpt, s.idle_since with
          | some rms, some idle_start =>
            decide (th ≤ rms) && !s.gate.active &&
              decide (TRACK_GAP_MS ≤ now - idle_start)
          | _, _ => false)) ∧
    (∀ s : ChunkLoopState, (bridge_status s).1 = some true ↔ s.track_change = true) ∧
    (∀ s : ChunkLoopState, (bridge_status s).1 = some true →
      (bridge_status ((bridge_status s).2)).1 = none) := by
  refine ⟨chunkStep_track_change, fun s => ?_, fun s h => ?_⟩
  · unfold bridge_status
    by_cases h : s.track_change <;> simp [h]
  · unfold bridge_status at *
    by_cases hs : s.track_change <;> simp [hs] at *

/-- Witness for C4: a state with the flag set reports `Some(true)` once and
`None` immediately afterwards. -/
theorem track_change_edge_and_consume_witness :
    (bridge_status ⟨VadGate.new, none, true⟩).1 = some true ∧
    (bridge_status ((bridge_status ⟨VadGate.new, none, true⟩).2)).1 = none := by
  have h1 : (bridge_status ⟨VadGate.new, none, true⟩).1 = some true :=
    (track_change_edge_and_consume.2.1 ⟨VadGate.new, none, true⟩).mpr rfl
  exact ⟨h1, track_change_edge_and_consume.2.2 ⟨VadGate.new, none, true⟩ h1⟩

/-- C9 (refuting termination for 0 channels): with `channels = 0` the
`while` loop of `convert_direct_to_i16` never advances `idx` while its guard
`idx + 0 ≤ data.len()` stays true, so it never terminates — for any fuel the
loop is still running (this holds for every input buffer, including the
empty one). -/
theorem convert_direct_zero_channels_diverges :
    (∀ (data : List ℚ) (fuel : ℕ) (out : List ℤ),
      convertDirectLoop data 0 fuel 0 out = none) ∧
    (∀ data : List ℚ, convert_direct_to_i16 data 0 = none) := by
  have hloop : ∀ (data : List ℚ) (fuel : ℕ) (out : List ℤ),
      convertDirectLoop data 0 fuel 0 out = none := by
    intro data fuel
    induction fuel with
    | zero => intro out; rfl
    | succ n ih =>
      intro out
      simp only [convertDirectLoop, Nat.add_zero, Nat.zero_le, if_pos]
      exact ih _
  exact ⟨hloop, fun data => hloop data (data.length + 1) []⟩

lemma linearLoop_c7 :
    linearLoop [0, 0, 1, 1, 0, 0, 1, 1] 2 2 4 4 0 [] =
      some (4, [(0 : ℤ), 0, 0, 0]) := by
  norm_num [linearLoop, map_channels, f32_to_i16_zero, Int.floor_ofNat,
    Int.toNat_ofNat, List.getElem?_cons_succ, List.getElem?_cons_zero]
  norm_num [show Int.toNat 2 = 2 from rfl, f32_to_i16_zero]

/-- C7: the linear resampler at `in_rate = 96000`, `target_rate = 48000`,
fed the 4 stereo frames `[0,0, 1,1, 0,0, 1,1]` from the fresh state
(`pos = 0`, empty buffer), emits exactly the 2 stereo frames `[0,0]` and
`[0,0]`, which are the quantized input frames at indices 0 and 2 (the
interpolation fractions are 0 there); afterwards the whole buffer is
drained and `pos` returns to 0. -/
theorem linear_downsample_2to1_test :
    LinearResampler.new.process [0, 0, 1, 1, 0, 0, 1, 1] 2 96000 48000 =
      some ([0, 0, 0, 0], LinearResampler.new) ∧
    [(0 : ℤ), 0, 0, 0] =
      List.map f32_to_i16
        ((([0, 0, 1, 1, 0, 0, 1, 1] : List ℚ).drop (0 * 2)).take 2 ++
          (([0, 0, 1, 1, 0, 0, 1, 1] : List ℚ).drop (2 * 2)).take 2) := by
  constructor
  · simp only [LinearResampler.process, LinearResampler.new]
    norm_num [linearLoop_c7]
    norm_num [Int.floor_ofNat, show Int.toNat 4 = 4 from rfl]
    intro h
    simp at h
  · norm_num [f32_to_i16_zero]

lemma update_if_eq_iff {α : Type _} [DecidableEq α] (x y : α) :
    ((if x ≠ y then x else y) = y) ↔ x = y := by
  by_cases h : x = y <;> simp [h]

/-- C1: merging a server reply leaves the stream key unchanged exactly when
the reply changes none of the stream-relevant fields (`assigned_input_id`,
`ingest_ws_url`, `ingest_tcp_host`, `ingest_tcp_port`, `capture_device`,
`ingest_sample_rate`, resampler mode); in particular a reply that differs
only in `vad_threshold_db` / `vad_hold_ms` keeps the key, and a reply that
changes any stream-relevant field changes the key. -/
theorem stream_key_stable_iff (cfg : RuntimeConfig) (r : BridgeConfigResponse) :
    ((cfg.update r).1).stream_key = cfg.stream_key ↔
      ¬ replyChangesStreamField cfg r := by
  simp only [RuntimeConfig.update, RuntimeConfig.stream_key,
    replyChangesStreamField, StreamKey.mk.injEq, not_or]
  cases hr : r.ingest_sample_rate <;> cases hm : r.ingest_resampler <;>
    simp [update_if_eq_iff, hr, hm]

/-- C3 counterexample: a reply that leaves `assigned_input_id` absent
(`None`) does not keep the previous value — `RuntimeConfig::update` copies
the differing reply value verbatim, clearing the previously assigned id. -/
theorem update_absent_field_cleared_counterexample :
    (BridgeConfigResponse.mk none none none none none none none none none).assigned_input_id
        = none ∧
    (RuntimeConfig.mk (some "input-1") none (some "host") (some 9000) (some "dev")
        (-45) 2000 48000 ResamplerMode.SincQuality).assigned_input_id = some "input-1" ∧
    ((RuntimeConfig.mk (some "input-1") none (some "host") (some 9000) (some "dev")
          (-45) 2000 48000 ResamplerMode.SincQuality).update
        (BridgeConfigResponse.mk none none none none none none none none none)).1.assigned_input_id
      = none := by
  refine ⟨rfl, rfl, ?_⟩
  simp [RuntimeConfig.update]

/-- C3 (amended): the four guarded fields (`ingest_sample_rate` →
`target_rate`, `ingest_resampler` → `resampler`, `vad_threshold_db`,
`vad_hold_ms`) keep their previous value when the reply leaves them absent,
and only a supplied value can change them; the five identity fields
(`assigned_input_id`, `ingest_ws_url`, `ingest_tcp_host`,
`ingest_tcp_port`, `capture_device`) always take the reply's value
verbatim, so an absent (`None`) reply field clears a previously set value
instead of keeping it. -/
theorem update_merge_amended (cfg : RuntimeConfig) (r : BridgeConfigResponse) :
    ((cfg.update r).1).assigned_input_id = r.assigned_input_id ∧
    ((cfg.update r).1).ingest_ws_url = r.ingest_ws_url ∧
    ((cfg.update r).1).ingest_tcp_host = r.ingest_tcp_host ∧
    ((cfg.update r).1).ingest_tcp_port = r.ingest_tcp_port ∧
    ((cfg.update r).1).capture_device = r.capture_device ∧
    (r.ingest_sample_rate = none → ((cfg.update r).1).target_rate = cfg.target_rate) ∧
    (r.ingest_resampler = none → ((cfg.update r).1).resampler = cfg.resampler) ∧
    (r.vad_threshold_db = none →
      ((cfg.update r).1).vad_threshold_db = cfg.vad_threshold_db) ∧
    (r.vad_hold_ms = none → ((cfg.update r).1).vad_hold_ms = cfg.vad_hold_ms) := by
  refine ⟨?_, ?_, ?_, ?_, ?_, ?_, ?_, ?_, ?_⟩
  · by_cases h : r.assigned_input_id = cfg.assigned_input_id <;>
      simp [RuntimeConfig.update, h]
  · by_cases h : r.ingest_ws_url = cfg.ingest_ws_url <;>
      simp [RuntimeConfig.update, h]
  · by_cases h : r.ingest_tcp_host = cfg.ingest_tcp_host <;>
      simp [RuntimeConfig.update, h]
  · by_cases h : r.ingest_tcp_port = cfg.ingest_tcp_port <;>
      simp [RuntimeConfig.update, h]
  · by_cases h : r.capture_device = cfg.capture_device <;>
      simp [RuntimeConfig.update, h]
  · intro h; simp [RuntimeConfig.update, h]
  · intro h; simp [RuntimeConfig.update, h]
  · intro h; simp [RuntimeConfig.update, h]
  · intro h; simp [RuntimeConfig.update, h]

/-- Witness for C3's amended statement: an all-absent reply keeps the
guarded fields of a concrete configuration. -/
theorem update_merge_amended_witness :
    ((RuntimeConfig.mk (some "input-1") none (some "host") (some 9000) (some "dev")
          (-45) 2000 48000 ResamplerMode.SincQuality).update
        (BridgeConfigResponse.mk none none none none none none none none none)).1.target_rate
      = 48000 := by
  exact (update_merge_amended _ _).2.2.2.2.2.1 rfl

/-- Witness for C1: a reply that only supplies new VAD settings leaves the
stream key of a concrete configuration unchanged. -/
theorem stream_key_stable_iff_witness :
    (((RuntimeConfig.mk none none none none none (-45) 2000 48000
          ResamplerMode.SincQuality).update
        (BridgeConfigResponse.mk none none none none none (some (-30))
          (some 500) none none)).1).stream_key =
      (RuntimeConfig.mk none none none none none (-45) 2000 48000
        ResamplerMode.SincQuality).stream_key := by
  apply (stream_key_stable_iff _ _).mpr
  simp [replyChangesStreamField]
